import Mathlib

/-!
Verification of the business-recommendation-system core against its
specification.  The Python source (recommendation_engine.py, ml_predictor.py)
is shallowly embedded: dataframes become lists of rows, numeric values become
rationals, Python `round(x, n)` becomes decimal round-half-to-even, and the
opaque ML regressors / scaler become abstract function parameters (the
transcendental helpers `np.log1p` and the square root inside the sample
standard deviation are likewise abstract parameters, since no claim depends
on their values).
-/

/-! ### Decimal rounding (Python `round(x, ndigits)` on exact values) -/

/-- Round a rational to an integer, halves to the even neighbour
(Python / IEEE banker rounding, idealized over ℚ). -/
def roundHalfEven (q : ℚ) : ℤ :=
  if Int.fract q < 1/2 then ⌊q⌋
  else if 1/2 < Int.fract q then ⌊q⌋ + 1
  else if ⌊q⌋ % 2 = 0 then ⌊q⌋ else ⌊q⌋ + 1

/-- Model of Python `round(q, n)`. -/
def roundTo (n : ℕ) (q : ℚ) : ℚ := (roundHalfEven (q * 10 ^ n) : ℚ) / 10 ^ n

/-! ### Data model: one CSV row of the business dataset -/

/-- A row of the business dataset (columns City, Category, Business,
Investment, Demand, Competition). -/
structure RawRow where
  City : String
  Category : String
  Business : String
  Investment : ℚ
  Demand : ℚ
  Competition : ℚ
deriving DecidableEq

/-- Mean of a list of rationals (pandas mean; only applied to nonempty
groups by the code paths modelled here). -/
def meanQ (xs : List ℚ) : ℚ := xs.sum / (xs.length : ℚ)

/-- pandas sample standard deviation (ddof = 1) followed by `fillna(0)`:
a group of size ≤ 1 yields NaN, which the source replaces by 0.  The square
root is an abstract parameter. -/
def sampleStd (sqrtQ : ℚ → ℚ) (xs : List ℚ) : ℚ :=
  if xs.length ≤ 1 then 0
  else sqrtQ ((xs.map (fun x => (x - meanQ xs) ^ 2)).sum / ((xs.length : ℚ) - 1))

/-! ### ScoringEngine (recommendation_engine.py) -/

/-- Model of `calculate_market_gap`: normalize `demand - competition` from
[-100,100] onto the 0-100 scale. -/
def calculate_market_gap (demand competition : ℚ) : ℚ :=
  ((demand - competition) + 100) / 200 * 100

/-- Model of `calculate_budget_fit` from recommendation_engine.py. -/
def calculate_budget_fit (user_budget required_investment : ℚ) : ℚ :=
  if required_investment ≤ user_budget then 100
  else min (user_budget / required_investment * 100) 100

/-- Model of `calculate_interest_match` from recommendation_engine.py: binary 100/0. -/
def calculate_interest_match (user_interests : List String) (business_category : String) : ℚ :=
  if business_category ∈ user_interests then 100 else 0

/-- Model of `calculate_total_score` from recommendation_engine.py: 50/30/20 weighted
sum, rounded to 2 decimal places. -/
def calculate_total_score (row : RawRow) (user_budget : ℚ) (user_interests : List String) : ℚ :=
  roundTo 2 (calculate_market_gap row.Demand row.Competition * 0.5
    + calculate_budget_fit user_budget row.Investment * 0.3
    + calculate_interest_match user_interests row.Category * 0.2)

/-- Model of `get_score_explanation` from recommendation_engine.py: three tiered tags
joined with " | ". -/
def get_score_explanation (row : RawRow) (user_budget : ℚ) (user_interests : List String) : String :=
  let market_gap := calculate_market_gap row.Demand row.Competition
  let budget_fit := calculate_budget_fit user_budget row.Investment
  let interest_match := calculate_interest_match user_interests row.Category
  let e1 := if 70 ≤ market_gap then "🎯 High market opportunity (low competition, high demand)"
    else if 50 ≤ market_gap then "📈 Good market potential"
    else "⚠️ Competitive market"
  let e2 := if budget_fit = 100 then "💰 Perfect budget fit"
    else if 80 ≤ budget_fit then "💵 Good budget alignment"
    else if 50 ≤ budget_fit then "💲 Moderate budget requirement"
    else "💸 High investment needed"
  let e3 := if interest_match = 100 then "❤️ Matches your interests"
    else "🔍 Outside your preferred categories"
  String.intercalate " | " [e1, e2, e3]

/-- One entry of the list returned by `get_recommendations`. -/
structure Recommendation where
  business_name : String
  category : String
  investment_required : ℚ
  demand : ℚ
  competition : ℚ
  score : ℚ
  explanation : String
  market_gap : ℚ
  budget_fit : ℚ
  interest_match : ℚ
deriving DecidableEq

/-- Descending-by-score comparison used to model taking the `top_n` largest
scores (a stable descending sort followed by `take`). -/
def scoreDescBool (a b : RawRow × ℚ) : Bool := decide (b.2 ≤ a.2)

/-- Build the output dictionary for one scored row
(`get_recommendations`, loop over `top_businesses.iterrows()`). -/
def toRecommendation (user_budget : ℚ) (user_interests : List String)
    (p : RawRow × ℚ) : Recommendation :=
  { business_name := p.1.Business
    category := p.1.Category
    investment_required := p.1.Investment
    demand := p.1.Demand
    competition := p.1.Competition
    score := p.2
    explanation := get_score_explanation p.1 user_budget user_interests
    market_gap := calculate_market_gap p.1.Demand p.1.Competition
    budget_fit := calculate_budget_fit user_budget p.1.Investment
    interest_match := calculate_interest_match user_interests p.1.Category }

/-- Model of `get_recommendations` from recommendation_engine.py: filter by city,
return [] when nothing matches, score every remaining row, take the
`top_n` largest scores in descending order. -/
def get_recommendations (df : List RawRow) (city : String) (budget : ℚ)
    (interests : List String) (top_n : ℕ) : List Recommendation :=
  let city_businesses := df.filter (fun r => r.City == city)
  if city_businesses.isEmpty then []
  else
    let scored := city_businesses.map (fun r => (r, calculate_total_score r budget interests))
    let top := (scored.mergeSort scoreDescBool).take top_n
    top.map (toRecommendation budget interests)

/-! ### MLPredictor (ml_predictor.py) -/

/-- Frozen classes of the three `LabelEncoder`s (City, Category, Business). -/
structure Encoders where
  cityClasses : List String
  categoryClasses : List String
  businessClasses : List String
deriving DecidableEq

/-- Model of `LabelEncoder.fit`: the classes are the sorted distinct values. -/
def fitClasses (xs : List String) : List String :=
  xs.dedup.mergeSort (fun a b => decide (a ≤ b))

/-- Model of `LabelEncoder.transform` with the unseen-label guard of
`prepare_features`: position in the sorted classes, or the sentinel -1. -/
def encodeLabel (classes : List String) (x : String) : ℤ :=
  if x ∈ classes then (classes.indexOf x : ℤ) else -1

/-- Fitting all three encoders over a dataframe (first call of
`prepare_features`, during training). -/
def fitEncoders (df : List RawRow) : Encoders :=
  { cityClasses := fitClasses (df.map RawRow.City)
    categoryClasses := fitClasses (df.map RawRow.Category)
    businessClasses := fitClasses (df.map RawRow.Business) }

/-- The 14 feature columns selected at the end of `prepare_features`. -/
structure FeatureVec where
  City_encoded : ℚ
  Category_encoded : ℚ
  Business_encoded : ℚ
  Investment_log : ℚ
  Investment_scaled : ℚ
  City_avg_investment : ℚ
  City_investment_std : ℚ
  City_business_count : ℚ
  City_avg_demand : ℚ
  City_avg_competition : ℚ
  Category_avg_investment : ℚ
  Category_investment_std : ℚ
  Category_avg_demand : ℚ
  Category_avg_competition : ℚ
deriving DecidableEq

/-- The feature vector `prepare_features` builds for row `r` of dataframe
`df`.  Crucially, the city-level and category-level aggregates are the
groupby statistics of `df` itself — the dataframe the function was *given*,
joined back onto the row by encoded key. -/
def featureRow (log1p sqrtQ : ℚ → ℚ) (enc : Encoders) (df : List RawRow) (r : RawRow) : FeatureVec :=
  let ce := encodeLabel enc.cityClasses r.City
  let cae := encodeLabel enc.categoryClasses r.Category
  let be := encodeLabel enc.businessClasses r.Business
  let cityGroup := df.filter (fun s => encodeLabel enc.cityClasses s.City == ce)
  let catGroup := df.filter (fun s => encodeLabel enc.categoryClasses s.Category == cae)
  { City_encoded := (ce : ℚ)
    Category_encoded := (cae : ℚ)
    Business_encoded := (be : ℚ)
    Investment_log := log1p r.Investment
    Investment_scaled := r.Investment / 1000000
    City_avg_investment := meanQ (cityGroup.map RawRow.Investment)
    City_investment_std := sampleStd sqrtQ (cityGroup.map RawRow.Investment)
    City_business_count := (cityGroup.length : ℚ)
    City_avg_demand := meanQ (cityGroup.map RawRow.Demand)
    City_avg_competition := meanQ (cityGroup.map RawRow.Competition)
    Category_avg_investment := meanQ (catGroup.map RawRow.Investment)
    Category_investment_std := sampleStd sqrtQ (catGroup.map RawRow.Investment)
    Category_avg_demand := meanQ (catGroup.map RawRow.Demand)
    Category_avg_competition := meanQ (catGroup.map RawRow.Competition) }

/-- Model of `prepare_features` applied to a whole dataframe with given (already
fitted) encoders. -/
def prepare_features (log1p sqrtQ : ℚ → ℚ) (enc : Encoders) (df : List RawRow) : List FeatureVec :=
  df.map (featureRow log1p sqrtQ enc df)

/-- The training-time featureization (`train_models` line: features =
prepare_features(self.df), which also fits the encoders). -/
def train_features (log1p sqrtQ : ℚ → ℚ) (df : List RawRow) : List FeatureVec :=
  prepare_features log1p sqrtQ (fitEncoders df) df

/-- The one-row input frame `predict_single_business` constructs, with
placeholder 0 for the Demand and Competition columns. -/
def mkInputRow (city category business : String) (investment : ℚ) : RawRow :=
  { City := city, Category := category, Business := business
    Investment := investment, Demand := 0, Competition := 0 }

/-- The dictionary `predict_single_business` and `_get_fallback_prediction`
return. -/
structure PredictionResult where
  demand : ℚ
  competition : ℚ
  confidence : ℚ
  market_gap : ℚ
  prediction_quality : String
deriving DecidableEq

/-- Model of the confidence heuristic: base 0.85 plus the sampled jitter,
capped at 1.  The Gaussian sample is passed in as `jitter`. -/
def calculate_confidence (jitter : ℚ) : ℚ := min (0.85 + jitter) 1

/-- The quality ladder of `predict_single_business`: High when confidence
exceeds 0.8, Medium when it exceeds 0.6, Low otherwise. -/
def prediction_quality_of (confidence : ℚ) : String :=
  if 0.8 < confidence then "High"
  else if 0.6 < confidence then "Medium"
  else "Low"

/-- Model of the fallback prediction: static category-keyed table. -/
def get_fallback_prediction (category : String) : PredictionResult :=
  let pred : ℚ × ℚ :=
    if category = "Food" then (75, 65)
    else if category = "Tech" then (80, 55)
    else if category = "Healthcare" then (85, 45)
    else if category = "Education" then (70, 60)
    else if category = "Fitness" then (72, 50)
    else if category = "Tourism" then (68, 55)
    else if category = "Retail" then (65, 70)
    else (70, 60)
  { demand := pred.1, competition := pred.2, confidence := 0.6,
    market_gap := pred.1 - pred.2, prediction_quality := "Medium" }

/-- Predictor state.  The flag `trained = false` models the condition that
demand_model or competition_model is None.  The two models bundle `scaler.transform`
followed by `model.predict`; they return `Except` because everything inside
the `try` block of `predict_single_business` may raise. -/
structure MLPredictor where
  trained : Bool
  encoders : Encoders
  demandModel : FeatureVec → Except String ℚ
  competitionModel : FeatureVec → Except String ℚ

/-- Model of `predict_single_business` from ml_predictor.py.  Raises (returns
`Except.error`) when the models are not trained; otherwise runs the guarded
body and downgrades any internal failure to the category fallback. -/
def predict_single_business (p : MLPredictor) (log1p sqrtQ : ℚ → ℚ) (jitter : ℚ)
    (city category business : String) (investment : ℚ) : Except String PredictionResult :=
  if p.trained = false then
    Except.error "Models not trained. Call train_models() first."
  else
    let input_row := mkInputRow city category business investment
    let fv := featureRow log1p sqrtQ p.encoders [input_row] input_row
    let attempt : Except String PredictionResult :=
      match p.demandModel fv, p.competitionModel fv with
      | Except.ok demand_raw, Except.ok competition_raw =>
        let demand_pred := max 50 (min demand_raw 100)
        let competition_pred := max 20 (min competition_raw 80)
        let confidence := calculate_confidence jitter
        Except.ok { demand := roundTo 1 demand_pred
                    competition := roundTo 1 competition_pred
                    confidence := roundTo 2 confidence
                    market_gap := roundTo 1 (demand_pred - competition_pred)
                    prediction_quality := prediction_quality_of confidence }
      | Except.error e, _ => Except.error e
      | _, Except.error e => Except.error e
    match attempt with
    | Except.ok r => Except.ok r
    | Except.error _ => Except.ok (get_fallback_prediction category)

/-! ### Engine-level prediction dispatch (recommendation_engine.py) -/

/-- Engine state: the loaded dataframe, the ML flag, and the optional
predictor. -/
structure Engine where
  df : List RawRow
  use_ml : Bool
  ml_predictor : Option MLPredictor

/-- Recommendation query as a state transformer: the source copies the city
slice (`.copy()`) before attaching the score and explanation columns, so the
stored dataframe of the engine is never written. -/
def get_recommendations_run (e : Engine) (city : String) (budget : ℚ)
    (interests : List String) (top_n : ℕ) : List Recommendation × Engine :=
  (get_recommendations e.df city budget interests top_n, e)

/-- The dictionary `predict_new_business_opportunity` returns: the ML path
adds interpretation/recommendation keys, the basic path does not. -/
structure OpportunityResult where
  demand : ℚ
  competition : ℚ
  confidence : ℚ
  market_gap : ℚ
  prediction_quality : String
  interpretation : Option String
  recommendation : Option String
deriving DecidableEq

/-- Model of the ML-prediction interpretation ladder. -/
def interpret_ml_prediction (r : PredictionResult) : String :=
  if 20 < r.market_gap ∧ 0.8 < r.confidence then "🚀 Excellent opportunity with high confidence"
  else if 15 < r.market_gap ∧ 0.7 < r.confidence then "📈 Good opportunity with solid predictions"
  else if 5 < r.market_gap then "📊 Moderate opportunity, consider market research"
  else "⚠️ Challenging market, high competition expected"

/-- Model of the business-recommendation ladder. -/
def get_business_recommendation (r : PredictionResult) : String :=
  if 80 < r.demand ∧ r.competition < 40 then "🎯 Highly recommended - High demand, low competition"
  else if 70 < r.demand ∧ r.competition < 60 then "👍 Recommended - Good market potential"
  else if r.confidence < 0.6 then "🔍 Needs more research - Low prediction confidence"
  else "⚠️ Proceed with caution - Competitive market"

/-- Model of the basic (non-ML) prediction of recommendation_engine.py. -/
def get_basic_prediction (df : List RawRow) (city category : String) : OpportunityResult :=
  let city_data := df.filter (fun r => r.City == city && r.Category == category)
  let avgs : ℚ × ℚ :=
    if city_data.isEmpty then
      let category_data := df.filter (fun r => r.Category == category)
      (if category_data.isEmpty then 70 else meanQ (category_data.map RawRow.Demand),
       if category_data.isEmpty then 50 else meanQ (category_data.map RawRow.Competition))
    else
      (meanQ (city_data.map RawRow.Demand), meanQ (city_data.map RawRow.Competition))
  { demand := roundTo 1 avgs.1
    competition := roundTo 1 avgs.2
    market_gap := roundTo 1 (avgs.1 - avgs.2)
    confidence := 0.7
    prediction_quality := "Basic"
    interpretation := none
    recommendation := none }

/-- The ML branch of `predict_new_business_opportunity` adds the
interpretation and recommendation keys to the dictionary of the predictor. -/
def extendPrediction (r : PredictionResult) : OpportunityResult :=
  { demand := r.demand, competition := r.competition, confidence := r.confidence,
    market_gap := r.market_gap, prediction_quality := r.prediction_quality,
    interpretation := some (interpret_ml_prediction r),
    recommendation := some (get_business_recommendation r) }

/-- Model of `predict_new_business_opportunity`: basic
prediction when ML is off or absent, otherwise the ML prediction with any
raised error caught and downgraded to the basic prediction. -/
def predict_new_business_opportunity (e : Engine) (log1p sqrtQ : ℚ → ℚ) (jitter : ℚ)
    (city category business_name : String) (investment : ℚ) : OpportunityResult :=
  match e.use_ml, e.ml_predictor with
  | false, _ => get_basic_prediction e.df city category
  | true, none => get_basic_prediction e.df city category
  | true, some p =>
    match predict_single_business p log1p sqrtQ jitter city category business_name investment with
    | Except.ok r => extendPrediction r
    | Except.error _ => get_basic_prediction e.df city category

/-! ### Supporting lemmas -/

lemma le_roundHalfEven (q : ℚ) : ⌊q⌋ ≤ roundHalfEven q := by
  unfold roundHalfEven
  split_ifs <;> omega

lemma roundHalfEven_le_ceil (q : ℚ) : roundHalfEven q ≤ ⌈q⌉ := by
  have hbase : 1/2 ≤ Int.fract q → ⌊q⌋ + 1 ≤ ⌈q⌉ := by
    intro h
    have hfr : Int.fract q = q - ⌊q⌋ := rfl
    have h0 : (⌊q⌋ : ℚ) < q := by rw [hfr] at h; linarith
    have h1 : (⌊q⌋ : ℚ) < (⌈q⌉ : ℚ) := lt_of_lt_of_le h0 (Int.le_ceil q)
    have h2 : ⌊q⌋ < ⌈q⌉ := by exact_mod_cast h1
    omega
  unfold roundHalfEven
  split_ifs with h1 h2 h3
  · exact Int.floor_le_ceil q
  · exact hbase (le_of_lt h2)
  · exact Int.floor_le_ceil q
  · exact hbase (by linarith)

lemma roundTo_bounds (n : ℕ) (a b : ℤ) (q : ℚ) (ha : (a : ℚ) ≤ q) (hb : q ≤ (b : ℚ)) :
    (a : ℚ) ≤ roundTo n q ∧ roundTo n q ≤ (b : ℚ) := by
  have hp : (0 : ℚ) < 10 ^ n := by positivity
  have hfl : a * 10 ^ n ≤ ⌊q * 10 ^ n⌋ := by
    apply Int.le_floor.mpr
    push_cast
    exact mul_le_mul_of_nonneg_right ha (le_of_lt hp)
  have hcl : ⌈q * 10 ^ n⌉ ≤ b * 10 ^ n := by
    apply Int.ceil_le.mpr
    push_cast
    exact mul_le_mul_of_nonneg_right hb (le_of_lt hp)
  have hlo : a * 10 ^ n ≤ roundHalfEven (q * 10 ^ n) :=
    le_trans hfl (le_roundHalfEven _)
  have hhi : roundHalfEven (q * 10 ^ n) ≤ b * 10 ^ n :=
    le_trans (roundHalfEven_le_ceil _) hcl
  constructor
  · rw [roundTo, le_div_iff₀ hp]
    exact_mod_cast hlo
  · rw [roundTo, div_le_iff₀ hp]
    exact_mod_cast hhi

lemma budget_fit_bounds (b r : ℚ) (hb : 0 < b) (hr : 0 < r) :
    0 ≤ calculate_budget_fit b r ∧ calculate_budget_fit b r ≤ 100 := by
  unfold calculate_budget_fit
  split_ifs with h
  · norm_num
  · constructor
    · apply le_min _ (by norm_num)
      positivity
    · exact min_le_right _ _

lemma interest_match_cases (il : List String) (c : String) :
    calculate_interest_match il c = 0 ∨ calculate_interest_match il c = 100 := by
  unfold calculate_interest_match
  split_ifs <;> simp

lemma round2_of_twenty : roundTo 2 20 = 20 := by
  rw [roundTo, roundHalfEven, Int.fract]
  norm_num

lemma round2_of_eighty : roundTo 2 80 = 80 := by
  rw [roundTo, roundHalfEven, Int.fract]
  norm_num

/-! ### Claim theorems -/

/-- C5: `calculate_market_gap` computes ((d-c)+100)/200*100, lies in [0,100]
for d,c in [0,100], is monotone increasing in demand, decreasing in
competition, and satisfies marketGap(d,c) + marketGap(c,d) = 100. -/
theorem market_gap_spec (d c : ℚ) (hd0 : 0 ≤ d) (hd1 : d ≤ 100)
    (hc0 : 0 ≤ c) (hc1 : c ≤ 100) :
    calculate_market_gap d c = ((d - c) + 100) / 200 * 100
    ∧ 0 ≤ calculate_market_gap d c
    ∧ calculate_market_gap d c ≤ 100
    ∧ (∀ d', d ≤ d' → calculate_market_gap d c ≤ calculate_market_gap d' c)
    ∧ (∀ c', c ≤ c' → calculate_market_gap d c' ≤ calculate_market_gap d c)
    ∧ calculate_market_gap d c + calculate_market_gap c d = 100 := by
  unfold calculate_market_gap
  refine ⟨rfl, by linarith, by linarith, ?_, ?_, by ring⟩
  · intro d' h
    linarith [h]
  · intro c' h
    linarith [h]

/-- Witness for C5 at (d,c) = (60,40). -/
theorem market_gap_spec_witness :
    calculate_market_gap 60 40 + calculate_market_gap 40 60 = 100 :=
  (market_gap_spec 60 40 (by norm_num) (by norm_num) (by norm_num)
    (by norm_num)).2.2.2.2.2

/-- C4: totalScore is the 50/30/20 weighted sum of the three sub-scores
rounded to 2 decimals, lies in [0,100] for in-range rows and positive
budget/investment; the case marketGap=0, budgetFit=0, interestMatch=100
yields 20.0 and the case marketGap=100, budgetFit=100, interestMatch=0
yields 80.0. -/
theorem total_score_spec :
    (∀ (row : RawRow) (budget : ℚ) (interests : List String),
      0 ≤ row.Demand → row.Demand ≤ 100 →
      0 ≤ row.Competition → row.Competition ≤ 100 →
      0 < budget → 0 < row.Investment →
      calculate_total_score row budget interests
          = roundTo 2 (calculate_market_gap row.Demand row.Competition * 0.5
              + calculate_budget_fit budget row.Investment * 0.3
              + calculate_interest_match interests row.Category * 0.2)
        ∧ 0 ≤ calculate_total_score row budget interests
        ∧ calculate_total_score row budget interests ≤ 100)
    ∧ calculate_total_score ⟨"X", "Food", "B", 1, 0, 100⟩ 0 ["Food"] = 20
    ∧ calculate_total_score ⟨"X", "Food", "B", 1, 100, 0⟩ 100 [] = 80 := by
  refine ⟨?_, ?_, ?_⟩
  · intro row budget interests hd0 hd1 hc0 hc1 hb hi
    have hmg := market_gap_spec row.Demand row.Competition hd0 hd1 hc0 hc1
    have hbf := budget_fit_bounds budget row.Investment hb hi
    have him := interest_match_cases interests row.Category
    refine ⟨rfl, ?_⟩
    have hsum0 : 0 ≤ calculate_market_gap row.Demand row.Competition * 0.5
        + calculate_budget_fit budget row.Investment * 0.3
        + calculate_interest_match interests row.Category * 0.2 := by
      rcases him with h | h <;> rw [h] <;> nlinarith [hmg.2.1, hbf.1]
    have hsum1 : calculate_market_gap row.Demand row.Competition * 0.5
        + calculate_budget_fit budget row.Investment * 0.3
        + calculate_interest_match interests row.Category * 0.2 ≤ 100 := by
      rcases him with h | h <;> rw [h] <;> nlinarith [hmg.2.2.1, hbf.2]
    have hr := roundTo_bounds 2 0 100 _ (by exact_mod_cast hsum0) (by exact_mod_cast hsum1)
    unfold calculate_total_score
    constructor
    · exact_mod_cast hr.1
    · exact_mod_cast hr.2
  · show roundTo 2 (calculate_market_gap 0 100 * 0.5
        + calculate_budget_fit 0 1 * 0.3 + calculate_interest_match ["Food"] "Food" * 0.2) = 20
    have h1 : calculate_market_gap 0 100 = 0 := by
      unfold calculate_market_gap; norm_num
    have h2 : calculate_budget_fit 0 1 = 0 := by
      unfold calculate_budget_fit; norm_num
    have h3 : calculate_interest_match ["Food"] "Food" = 100 := by
      unfold calculate_interest_match; simp
    rw [h1, h2, h3]
    calc roundTo 2 (0 * 0.5 + 0 * 0.3 + 100 * 0.2) = roundTo 2 20 := by norm_num
    _ = 20 := round2_of_twenty
  · show roundTo 2 (calculate_market_gap 100 0 * 0.5
        + calculate_budget_fit 100 1 * 0.3 + calculate_interest_match [] "Food" * 0.2) = 80
    have h1 : calculate_market_gap 100 0 = 100 := by
      unfold calculate_market_gap; norm_num
    have h2 : calculate_budget_fit 100 1 = 100 := by
      unfold calculate_budget_fit; norm_num
    have h3 : calculate_interest_match [] "Food" = 0 := by
      unfold calculate_interest_match; simp
    rw [h1, h2, h3]
    calc roundTo 2 (100 * 0.5 + 100 * 0.3 + 0 * 0.2) = roundTo 2 80 := by norm_num
    _ = 80 := round2_of_eighty

/-- Witness for C4 at a concrete in-range row. -/
theorem total_score_spec_witness :
    0 ≤ calculate_total_score ⟨"Mumbai", "Food", "B", 50, 70, 30⟩ 60 ["Food"]
    ∧ calculate_total_score ⟨"Mumbai", "Food", "B", 50, 70, 30⟩ 60 ["Food"] ≤ 100 :=
  ⟨(total_score_spec.1 ⟨"Mumbai", "Food", "B", 50, 70, 30⟩ 60 ["Food"]
      (by norm_num) (by norm_num) (by norm_num) (by norm_num) (by norm_num)
      (by norm_num)).2.1,
   (total_score_spec.1 ⟨"Mumbai", "Food", "B", 50, 70, 30⟩ 60 ["Food"]
      (by norm_num) (by norm_num) (by norm_num) (by norm_num) (by norm_num)
      (by norm_num)).2.2⟩

/-- C3: `get_recommendations` returns [] when no row matches the city (and
never raises — the function is total); the output length is
min(count, matching rows); and the output is sorted in descending order of
totalScore. -/
theorem get_recommendations_spec (df : List RawRow) (city : String) (budget : ℚ)
    (interests : List String) (top_n : ℕ) :
    (df.filter (fun r => r.City == city) = [] →
      get_recommendations df city budget interests top_n = [])
    ∧ (get_recommendations df city budget interests top_n).length
        = min top_n (df.filter (fun r => r.City == city)).length
    ∧ (get_recommendations df city budget interests top_n).Pairwise
        (fun a b => b.score ≤ a.score) := by
  by_cases h : df.filter (fun r => r.City == city) = []
  · unfold get_recommendations
    simp [h]
  · have hne : (df.filter (fun r => r.City == city)).isEmpty = false := by
      simp [List.isEmpty_iff, h]
    unfold get_recommendations
    simp only [hne, Bool.false_eq_true, if_false]
    refine ⟨fun hc => absurd hc h, ?_, ?_⟩
    · simp [List.length_take, List.length_mergeSort, List.length_map]
    · have htrans : ∀ a b c : RawRow × ℚ, scoreDescBool a b = true →
          scoreDescBool b c = true → scoreDescBool a c = true := by
        intro a b c hab hbc
        simp only [scoreDescBool, decide_eq_true_eq] at *
        exact le_trans hbc hab
      have htotal : ∀ a b : RawRow × ℚ, (scoreDescBool a b || scoreDescBool b a) = true := by
        intro a b
        simp only [scoreDescBool, Bool.or_eq_true, decide_eq_true_eq]
        exact le_total b.2 a.2
      have hs := List.sorted_mergeSort htrans htotal
        ((df.filter (fun r => r.City == city)).map
          (fun r => (r, calculate_total_score r budget interests)))
      have hs2 := List.Pairwise.sublist (List.take_sublist top_n _) hs
      refine List.pairwise_map.mpr ?_
      refine List.Pairwise.imp ?_ hs2
      intro a b hab
      simpa only [scoreDescBool, decide_eq_true_eq] using hab

/-- Witness for C3: on the empty dataset every city has zero matches and the
result is the empty list. -/
theorem get_recommendations_spec_witness :
    get_recommendations [] "Mumbai" 100 [] 3 = [] :=
  (get_recommendations_spec [] "Mumbai" 100 [] 3).1 rfl

lemma roundTo_intCast (n : ℕ) (z : ℤ) : roundTo n ((z : ℚ)) = (z : ℚ) := by
  have h1 : ((z : ℚ) * 10 ^ n) = ((z * 10 ^ n : ℤ) : ℚ) := by push_cast; ring
  rw [roundTo, h1, roundHalfEven, Int.fract_intCast]
  rw [if_pos (by norm_num)]
  rw [Int.floor_intCast]
  push_cast
  have hp : ((10 : ℚ) ^ n) ≠ 0 := by positivity
  field_simp

lemma fallback_prediction_bounds (category : String) :
    50 ≤ (get_fallback_prediction category).demand
    ∧ (get_fallback_prediction category).demand ≤ 100
    ∧ 20 ≤ (get_fallback_prediction category).competition
    ∧ (get_fallback_prediction category).competition ≤ 80 := by
  unfold get_fallback_prediction
  split_ifs <;> norm_num

/-- C9: one `recommend` call does not change the dataset of the engine (the
source scores a copy of the city slice, leaving `self.df` untouched), and a
second identical call on the resulting engine state returns the identical
ordered output. -/
theorem recommendations_idempotent (e : Engine) (city : String) (budget : ℚ)
    (interests : List String) (top_n : ℕ) :
    (get_recommendations_run e city budget interests top_n).2 = e
    ∧ (get_recommendations_run ((get_recommendations_run e city budget interests top_n).2)
          city budget interests top_n).1
        = (get_recommendations_run e city budget interests top_n).1 :=
  ⟨rfl, rfl⟩

/-- Witness for C9 on a concrete engine. -/
theorem recommendations_idempotent_witness :
    (get_recommendations_run ⟨[], false, none⟩ "Mumbai" 100 [] 3).2 = ⟨[], false, none⟩ :=
  (recommendations_idempotent ⟨[], false, none⟩ "Mumbai" 100 [] 3).1

/-- C7: the fallback prediction always carries confidence 0.6 and quality
"Medium", its market gap is the raw difference of its table entries, the
seven known categories have exactly the tabulated {demand, competition}
pairs, and every other category gets {70, 60}. -/
theorem fallback_prediction_spec (category : String) :
    (get_fallback_prediction category).confidence = 0.6
    ∧ (get_fallback_prediction category).prediction_quality = "Medium"
    ∧ (get_fallback_prediction category).market_gap
        = (get_fallback_prediction category).demand
          - (get_fallback_prediction category).competition
    ∧ (category = "Food" → (get_fallback_prediction category).demand = 75
        ∧ (get_fallback_prediction category).competition = 65)
    ∧ (category = "Tech" → (get_fallback_prediction category).demand = 80
        ∧ (get_fallback_prediction category).competition = 55)
    ∧ (category = "Healthcare" → (get_fallback_prediction category).demand = 85
        ∧ (get_fallback_prediction category).competition = 45)
    ∧ (category = "Education" → (get_fallback_prediction category).demand = 70
        ∧ (get_fallback_prediction category).competition = 60)
    ∧ (category = "Fitness" → (get_fallback_prediction category).demand = 72
        ∧ (get_fallback_prediction category).competition = 50)
    ∧ (category = "Tourism" → (get_fallback_prediction category).demand = 68
        ∧ (get_fallback_prediction category).competition = 55)
    ∧ (category = "Retail" → (get_fallback_prediction category).demand = 65
        ∧ (get_fallback_prediction category).competition = 70)
    ∧ (category ∉ (["Food", "Tech", "Healthcare", "Education", "Fitness",
          "Tourism", "Retail"] : List String) →
        (get_fallback_prediction category).demand = 70
        ∧ (get_fallback_prediction category).competition = 60) := by
  unfold get_fallback_prediction
  split_ifs with h1 h2 h3 h4 h5 h6 h7 <;> subst_eqs <;> norm_num <;> simp_all

/-- Witness for C7: an unknown category and a known one. -/
theorem fallback_prediction_spec_witness :
    (get_fallback_prediction "Gaming").demand = 70
    ∧ (get_fallback_prediction "Gaming").competition = 60
    ∧ (get_fallback_prediction "Food").demand = 75
    ∧ (get_fallback_prediction "Food").confidence = 0.6 :=
  ⟨((fallback_prediction_spec "Gaming").2.2.2.2.2.2.2.2.2.2 (by simp)).1,
   ((fallback_prediction_spec "Gaming").2.2.2.2.2.2.2.2.2.2 (by simp)).2,
   ((fallback_prediction_spec "Food").2.2.2.1 rfl).1,
   (fallback_prediction_spec "Food").1⟩

/-- C8 counterexample: the confidence estimate has no floor at 0, so it does
not always lie in [0,1] — a jitter of -1 yields a negative confidence. -/
theorem confidence_range_counterexample : calculate_confidence (-1) < 0 := by
  unfold calculate_confidence
  rw [min_def]
  norm_num

/-- C8 (amended): the confidence equals min(0.85 + jitter, 1.0); it is
always ≤ 1 and is ≥ 0 (hence in [0,1]) exactly when jitter ≥ -0.85; the
quality is High exactly when confidence > 0.8, Medium exactly when
0.6 < confidence ≤ 0.8, and Low otherwise. -/
theorem confidence_spec (jitter : ℚ) :
    calculate_confidence jitter = min (0.85 + jitter) 1
    ∧ calculate_confidence jitter ≤ 1
    ∧ (0 ≤ calculate_confidence jitter ↔ -0.85 ≤ jitter)
    ∧ (prediction_quality_of (calculate_confidence jitter) = "High"
        ↔ 0.8 < calculate_confidence jitter)
    ∧ (prediction_quality_of (calculate_confidence jitter) = "Medium"
        ↔ 0.6 < calculate_confidence jitter ∧ calculate_confidence jitter ≤ 0.8)
    ∧ (prediction_quality_of (calculate_confidence jitter) = "Low"
        ↔ calculate_confidence jitter ≤ 0.6) := by
  refine ⟨rfl, min_le_right _ _, ?_, ?_, ?_, ?_⟩
  · unfold calculate_confidence
    rw [le_min_iff]
    constructor
    · intro h
      linarith [h.1]
    · intro h
      exact ⟨by linarith, by norm_num⟩
  · unfold prediction_quality_of
    split_ifs with h1 h2 <;> simp_all
  · unfold prediction_quality_of
    split_ifs with h1 h2 <;> simp_all
  · unfold prediction_quality_of
    split_ifs with h1 h2 <;> simp_all
    linarith

/-- Witness for C8 (amended) at jitter 0. -/
theorem confidence_spec_witness :
    calculate_confidence 0 = min (0.85 + 0) 1 ∧ calculate_confidence 0 ≤ 1 :=
  ⟨(confidence_spec 0).1, (confidence_spec 0).2.1⟩

lemma clip_round_bounds (lo hi : ℤ) (x : ℚ) (h : (lo : ℚ) ≤ (hi : ℚ)) :
    (lo : ℚ) ≤ roundTo 1 (max (lo : ℚ) (min x (hi : ℚ)))
    ∧ roundTo 1 (max (lo : ℚ) (min x (hi : ℚ))) ≤ (hi : ℚ) :=
  roundTo_bounds 1 lo hi _ (le_max_left _ _) (max_le h (min_le_right _ _))

/-- C2 counterexample: in the Untrained state `predict_single_business`
raises ValueError ("Models not trained. Call train_models() first.") instead
of routing to the fallback policy — it returns no PredictionResult at all. -/
theorem predict_untrained_counterexample :
    predict_single_business
        ⟨false, ⟨[], [], []⟩, fun _ => Except.error "err", fun _ => Except.error "err"⟩
        id id 0 "Mumbai" "Food" "Cloud Kitchen" 2500000
      = Except.error "Models not trained. Call train_models() first."
    ∧ ∀ r, predict_single_business
        ⟨false, ⟨[], [], []⟩, fun _ => Except.error "err", fun _ => Except.error "err"⟩
        id id 0 "Mumbai" "Food" "Cloud Kitchen" 2500000 ≠ Except.ok r := by
  refine ⟨rfl, fun r h => ?_⟩
  simp [predict_single_business] at h

/-- C2 (amended): in the Trained state `predict` never raises for any
string/number input combination, including previously unseen
city/category/business names: every internal failure is caught and routed
to the category fallback, and the result is a well-formed PredictionResult
with demand in [50,100] and competition in [20,80].  (In the Untrained
state it raises ValueError instead of falling back.) -/
theorem predict_trained_never_raises (p : MLPredictor) (log1p sqrtQ : ℚ → ℚ)
    (jitter : ℚ) (city category business : String) (investment : ℚ)
    (ht : p.trained = true) :
    ∃ r, predict_single_business p log1p sqrtQ jitter city category business investment
          = Except.ok r
        ∧ 50 ≤ r.demand ∧ r.demand ≤ 100 ∧ 20 ≤ r.competition ∧ r.competition ≤ 80 := by
  have hfb := fallback_prediction_bounds category
  rcases hd : p.demandModel (featureRow log1p sqrtQ p.encoders
      [mkInputRow city category business investment]
      (mkInputRow city category business investment)) with e | d
  · refine ⟨get_fallback_prediction category, ?_, hfb.1, hfb.2.1, hfb.2.2.1, hfb.2.2.2⟩
    simp [predict_single_business, ht, hd]
  · rcases hc : p.competitionModel (featureRow log1p sqrtQ p.encoders
        [mkInputRow city category business investment]
        (mkInputRow city category business investment)) with e | c
    · refine ⟨get_fallback_prediction category, ?_, hfb.1, hfb.2.1, hfb.2.2.1, hfb.2.2.2⟩
      simp [predict_single_business, ht, hd, hc]
    · have hdb := clip_round_bounds 50 100 d (by norm_num)
      have hcb := clip_round_bounds 20 80 c (by norm_num)
      refine ⟨{ demand := roundTo 1 (max 50 (min d 100))
                competition := roundTo 1 (max 20 (min c 80))
                confidence := roundTo 2 (calculate_confidence jitter)
                market_gap := roundTo 1 (max 50 (min d 100) - max 20 (min c 80))
                prediction_quality := prediction_quality_of (calculate_confidence jitter) },
              ?_, ?_, ?_, ?_, ?_⟩
      · simp [predict_single_business, ht, hd, hc]
      · exact_mod_cast hdb.1
      · exact_mod_cast hdb.2
      · exact_mod_cast hcb.1
      · exact_mod_cast hcb.2

/-- Witness for C2 (amended): a trained predictor whose internal model
raises on every input still answers, with the fallback. -/
theorem predict_trained_never_raises_witness :
    ∃ r, predict_single_business
          ⟨true, ⟨[], [], []⟩, fun _ => Except.error "boom", fun _ => Except.error "boom"⟩
          id id 0 "Pune" "Gaming" "Arcade" 500
        = Except.ok r
        ∧ 50 ≤ r.demand ∧ r.demand ≤ 100 ∧ 20 ≤ r.competition ∧ r.competition ≤ 80 :=
  predict_trained_never_raises _ id id 0 "Pune" "Gaming" "Arcade" 500 rfl

/-- C6: on the successful trained path the demand of the result is the raw model
output clipped to [50,100] (rounded to 1 decimal), competition is clipped to
[20,80], and the market_gap field is the raw difference of the two clipped
values — not renormalized onto [0,100] as in the `calculate_market_gap` of
the ScoringEngine. -/
theorem predict_success_spec (p : MLPredictor) (log1p sqrtQ : ℚ → ℚ)
    (jitter : ℚ) (city category business : String) (investment : ℚ) (d c : ℚ)
    (ht : p.trained = true)
    (hd : p.demandModel (featureRow log1p sqrtQ p.encoders
        [mkInputRow city category business investment]
        (mkInputRow city category business investment)) = Except.ok d)
    (hc : p.competitionModel (featureRow log1p sqrtQ p.encoders
        [mkInputRow city category business investment]
        (mkInputRow city category business investment)) = Except.ok c) :
    predict_single_business p log1p sqrtQ jitter city category business investment
      = Except.ok
          { demand := roundTo 1 (max 50 (min d 100))
            competition := roundTo 1 (max 20 (min c 80))
            confidence := roundTo 2 (calculate_confidence jitter)
            market_gap := roundTo 1 (max 50 (min d 100) - max 20 (min c 80))
            prediction_quality := prediction_quality_of (calculate_confidence jitter) }
    ∧ 50 ≤ roundTo 1 (max 50 (min d 100)) ∧ roundTo 1 (max 50 (min d 100)) ≤ 100
    ∧ 20 ≤ roundTo 1 (max 20 (min c 80)) ∧ roundTo 1 (max 20 (min c 80)) ≤ 80 := by
  have hdb := clip_round_bounds 50 100 d (by norm_num)
  have hcb := clip_round_bounds 20 80 c (by norm_num)
  refine ⟨?_, ?_, ?_, ?_, ?_⟩
  · simp [predict_single_business, ht, hd, hc]
  · exact_mod_cast hdb.1
  · exact_mod_cast hdb.2
  · exact_mod_cast hcb.1
  · exact_mod_cast hcb.2

/-- Witness for C6: raw model outputs 120 and 10 get clipped to 100 and 20,
and the market gap is their raw difference 80. -/
theorem predict_success_spec_witness :
    predict_single_business
        ⟨true, ⟨["Mumbai"], ["Food"], ["CloudKitchen"]⟩,
          fun _ => Except.ok 120, fun _ => Except.ok 10⟩
        id id 0 "Mumbai" "Food" "CloudKitchen" 100
      = Except.ok
          { demand := roundTo 1 (max 50 (min 120 100))
            competition := roundTo 1 (max 20 (min 10 80))
            confidence := roundTo 2 (calculate_confidence 0)
            market_gap := roundTo 1 (max 50 (min 120 100) - max 20 (min 10 80))
            prediction_quality := prediction_quality_of (calculate_confidence 0) } :=
  (predict_success_spec
    ⟨true, ⟨["Mumbai"], ["Food"], ["CloudKitchen"]⟩,
      fun _ => Except.ok 120, fun _ => Except.ok 10⟩
    id id 0 "Mumbai" "Food" "CloudKitchen" 100 120 10 rfl rfl rfl).1

/-- C1: the feature vector built at inference time does NOT reuse the
training-time aggregates.  `prepare_features` recomputes the groupby
statistics from the dataframe it is given; at inference that dataframe is
the single input row with placeholder Demand = Competition = 0, so e.g.
City_avg_demand is 0 at inference while the training featureization of the
same (city, category, business, investment) tuple over this 2-row training
set carries City_avg_demand = 85. -/
theorem inference_recomputes_aggregates_bug (log1p sqrtQ : ℚ → ℚ) :
    ((prepare_features log1p sqrtQ
        (fitEncoders [⟨"Mumbai", "Food", "CloudKitchen", 100, 80, 60⟩,
                      ⟨"Mumbai", "Food", "Bakery", 200, 90, 70⟩])
        [mkInputRow "Mumbai" "Food" "CloudKitchen" 100]).map
      FeatureVec.City_avg_demand = [0])
    ∧ ((train_features log1p sqrtQ
        [⟨"Mumbai", "Food", "CloudKitchen", 100, 80, 60⟩,
         ⟨"Mumbai", "Food", "Bakery", 200, 90, 70⟩]).map
      FeatureVec.City_avg_demand = [85, 85])
    ∧ (featureRow log1p sqrtQ
        (fitEncoders [⟨"Mumbai", "Food", "CloudKitchen", 100, 80, 60⟩,
                      ⟨"Mumbai", "Food", "Bakery", 200, 90, 70⟩])
        [mkInputRow "Mumbai" "Food" "CloudKitchen" 100]
        (mkInputRow "Mumbai" "Food" "CloudKitchen" 100)).City_avg_demand
      ≠ (featureRow log1p sqrtQ
        (fitEncoders [⟨"Mumbai", "Food", "CloudKitchen", 100, 80, 60⟩,
                      ⟨"Mumbai", "Food", "Bakery", 200, 90, 70⟩])
        [⟨"Mumbai", "Food", "CloudKitchen", 100, 80, 60⟩,
         ⟨"Mumbai", "Food", "Bakery", 200, 90, 70⟩]
        ⟨"Mumbai", "Food", "CloudKitchen", 100, 80, 60⟩).City_avg_demand := by
  refine ⟨?_, ?_, ?_⟩
  · simp [prepare_features, featureRow, mkInputRow, List.filter, meanQ]
  · simp [train_features, prepare_features, featureRow, List.filter, meanQ]
    norm_num
  · have h1 : (featureRow log1p sqrtQ
        (fitEncoders [⟨"Mumbai", "Food", "CloudKitchen", 100, 80, 60⟩,
                      ⟨"Mumbai", "Food", "Bakery", 200, 90, 70⟩])
        [mkInputRow "Mumbai" "Food" "CloudKitchen" 100]
        (mkInputRow "Mumbai" "Food" "CloudKitchen" 100)).City_avg_demand = 0 := by
      simp [featureRow, mkInputRow, List.filter, meanQ]
    have h2 : (featureRow log1p sqrtQ
        (fitEncoders [⟨"Mumbai", "Food", "CloudKitchen", 100, 80, 60⟩,
                      ⟨"Mumbai", "Food", "Bakery", 200, 90, 70⟩])
        [⟨"Mumbai", "Food", "CloudKitchen", 100, 80, 60⟩,
         ⟨"Mumbai", "Food", "Bakery", 200, 90, 70⟩]
        ⟨"Mumbai", "Food", "CloudKitchen", 100, 80, 60⟩).City_avg_demand = 85 := by
      simp [featureRow, List.filter, meanQ]
      norm_num
    rw [h1, h2]
    norm_num

/-- Witness for C1 with concrete (identity) stand-ins for log1p and sqrt. -/
theorem inference_recomputes_aggregates_bug_witness :
    ((prepare_features id id
        (fitEncoders [⟨"Mumbai", "Food", "CloudKitchen", 100, 80, 60⟩,
                      ⟨"Mumbai", "Food", "Bakery", 200, 90, 70⟩])
        [mkInputRow "Mumbai" "Food" "CloudKitchen" 100]).map
      FeatureVec.City_avg_demand = [0]) :=
  (inference_recomputes_aggregates_bug id id).1

/-- C10: when ML is disabled, absent, or the ML prediction raises,
`predict_new_business_opportunity` returns the basic prediction: demand and
competition are the (city, category) means of the dataset (1-decimal
rounded), falling back to category-wide means when the city has no such
rows and to the constants 70 / 50 when the category is absent entirely;
market_gap is their difference, confidence is 0.7 and quality "Basic". -/
theorem basic_prediction_spec (e : Engine) (log1p sqrtQ : ℚ → ℚ) (jitter : ℚ)
    (city category business_name : String) (investment : ℚ) :
    (e.use_ml = false ∨ e.ml_predictor = none →
      predict_new_business_opportunity e log1p sqrtQ jitter city category business_name investment
        = get_basic_prediction e.df city category)
    ∧ (∀ p msg, e.ml_predictor = some p →
        predict_single_business p log1p sqrtQ jitter city category business_name investment
          = Except.error msg →
        predict_new_business_opportunity e log1p sqrtQ jitter city category business_name investment
          = get_basic_prediction e.df city category)
    ∧ (get_basic_prediction e.df city category).confidence = 0.7
    ∧ (get_basic_prediction e.df city category).prediction_quality = "Basic"
    ∧ (e.df.filter (fun r => r.City == city && r.Category == category) ≠ [] →
        (get_basic_prediction e.df city category).demand
          = roundTo 1 (meanQ ((e.df.filter
              (fun r => r.City == city && r.Category == category)).map RawRow.Demand))
        ∧ (get_basic_prediction e.df city category).competition
          = roundTo 1 (meanQ ((e.df.filter
              (fun r => r.City == city && r.Category == category)).map RawRow.Competition))
        ∧ (get_basic_prediction e.df city category).market_gap
          = roundTo 1 (meanQ ((e.df.filter
                (fun r => r.City == city && r.Category == category)).map RawRow.Demand)
              - meanQ ((e.df.filter
                (fun r => r.City == city && r.Category == category)).map RawRow.Competition)))
    ∧ (e.df.filter (fun r => r.City == city && r.Category == category) = [] →
        e.df.filter (fun r => r.Category == category) ≠ [] →
        (get_basic_prediction e.df city category).demand
          = roundTo 1 (meanQ ((e.df.filter
              (fun r => r.Category == category)).map RawRow.Demand))
        ∧ (get_basic_prediction e.df city category).competition
          = roundTo 1 (meanQ ((e.df.filter
              (fun r => r.Category == category)).map RawRow.Competition))
        ∧ (get_basic_prediction e.df city category).market_gap
          = roundTo 1 (meanQ ((e.df.filter
                (fun r => r.Category == category)).map RawRow.Demand)
              - meanQ ((e.df.filter
                (fun r => r.Category == category)).map RawRow.Competition)))
    ∧ (e.df.filter (fun r => r.Category == category) = [] →
        (get_basic_prediction e.df city category).demand = 70
        ∧ (get_basic_prediction e.df city category).competition = 50
        ∧ (get_basic_prediction e.df city category).market_gap = 20) := by
  refine ⟨?_, ?_, ?_, ?_, ?_, ?_, ?_⟩
  · intro h
    rcases h with h | h
    · cases hm : e.ml_predictor <;>
        simp [predict_new_business_opportunity, h, hm]
    · cases hu : e.use_ml <;>
        simp [predict_new_business_opportunity, h, hu]
  · intro p msg hp herr
    cases hu : e.use_ml
    · simp [predict_new_business_opportunity, hu, hp]
    · simp [predict_new_business_opportunity, hu, hp, herr]
  · simp [get_basic_prediction]
  · simp [get_basic_prediction]
  · intro hne
    have hne' : (e.df.filter (fun r => r.City == city && r.Category == category)).isEmpty = false := by
      simp [List.isEmpty_iff, hne]
    refine ⟨?_, ?_, ?_⟩ <;> simp [get_basic_prediction, hne']
  · intro hcity hcat
    have h1 : (e.df.filter (fun r => r.City == city && r.Category == category)).isEmpty = true := by
      simp [List.isEmpty_iff, hcity]
    have h2 : (e.df.filter (fun r => r.Category == category)).isEmpty = false := by
      simp [List.isEmpty_iff, hcat]
    refine ⟨?_, ?_, ?_⟩ <;> simp [get_basic_prediction, h1, h2]
  · intro hcat
    have hcity : e.df.filter (fun r => r.City == city && r.Category == category) = [] := by
      apply List.filter_eq_nil_iff.mpr
      intro r hr
      have := List.filter_eq_nil_iff.mp hcat r hr
      simp_all
    have h1 : (e.df.filter (fun r => r.City == city && r.Category == category)).isEmpty = true := by
      simp [List.isEmpty_iff, hcity]
    have h2 : (e.df.filter (fun r => r.Category == category)).isEmpty = true := by
      simp [List.isEmpty_iff, hcat]
    have h70 : roundTo 1 (70 : ℚ) = 70 := by exact_mod_cast roundTo_intCast 1 70
    have h50 : roundTo 1 (50 : ℚ) = 50 := by exact_mod_cast roundTo_intCast 1 50
    have h20 : roundTo 1 ((70 : ℚ) - 50) = 20 := by
      rw [show ((70 : ℚ) - 50) = ((20 : ℤ) : ℚ) by norm_num, roundTo_intCast]
      norm_num
    refine ⟨?_, ?_, ?_⟩ <;> simp [get_basic_prediction, h1, h2, h70, h50, h20]

/-- Witness for C10: engine with ML disabled and an empty dataset takes the
basic path and lands on the 70 / 50 constants. -/
theorem basic_prediction_spec_witness :
    predict_new_business_opportunity ⟨[], false, none⟩ id id 0 "Mumbai" "Food" "B" 100
      = get_basic_prediction [] "Mumbai" "Food"
    ∧ (get_basic_prediction ([] : List RawRow) "Mumbai" "Food").demand = 70
    ∧ (get_basic_prediction ([] : List RawRow) "Mumbai" "Food").confidence = 0.7 :=
  ⟨(basic_prediction_spec ⟨[], false, none⟩ id id 0 "Mumbai" "Food" "B" 100).1 (Or.inl rfl),
   ((basic_prediction_spec ⟨[], false, none⟩ id id 0 "Mumbai" "Food" "B" 100).2.2.2.2.2.2 rfl).1,
   (basic_prediction_spec ⟨[], false, none⟩ id id 0 "Mumbai" "Food" "B" 100).2.2.1⟩
